import Mathlib

/-!
Verification of the YouTube-video summarizer (`app.py`).

The program is a linear pipeline: a regex-based URL parser (`get_video_id`),
a transcript fetcher (`extract_transcript_details`) calling an external
captioning service, a prompt composer plus generative-model call
(`generate_gemini_content`), and a Streamlit button handler wiring them
together.  External services are embedded as explicit arguments
(`String → Except _ _`), a raised Python exception being the `Except.error`
case; every user-visible effect (warnings, `st.error` messages, outbound
calls, the rendered markdown) is collected in result records.
-/

namespace YtSummary

/-- The character class `[0-9A-Za-z_-]` of the regex in `get_video_id`. -/
def isIdChar (c : Char) : Bool :=
  c.isDigit || c.isUpper || c.isLower || c == '_' || c == '-'

/-- An 11-character block accepted by the capture group `([0-9A-Za-z_-]{11})`. -/
def isValidId (t : List Char) : Bool :=
  t.length == 11 && t.all isIdChar

/-- Match the capture group `([0-9A-Za-z_-]{11})` at the current position:
exactly the next 11 characters, all from the identifier class. -/
def takeId (cs : List Char) : Option (List Char) :=
  if isValidId (cs.take 11) then some (cs.take 11) else none

/-- One attempt of the pattern `(?:v=|\/)([0-9A-Za-z_-]{11}).*` anchored at the
current position.  The alternation tries `v=` and then `/`; the two branches
need distinct first characters, so at a fixed position at most one applies.
The trailing `.*` can always match the empty string and constrains nothing. -/
def matchAt : List Char → Option (List Char)
  | [] => none
  | [c] => if c = '/' then takeId [] else none
  | c1 :: c2 :: rest =>
    if c1 = 'v' ∧ c2 = '=' then takeId rest
    else if c1 = '/' then takeId (c2 :: rest)
    else none

/-- `re.search` semantics: try the pattern at each start position from the left
and return the first capture. -/
def searchId : List Char → Option (List Char)
  | [] => none
  | c :: rest =>
    match matchAt (c :: rest) with
    | some t => some t
    | none => searchId rest

/-- `get_video_id` from `app.py`: search the URL for the pattern and return the
captured group, or `None` when there is no match. -/
def get_video_id (url : String) : Option String :=
  (searchId url.data).map String.mk

/-- The block `t` occurs in `cs` immediately preceded by `v=` or by `/`. -/
def delimAt (t cs : List Char) : Prop :=
  (∃ pre post, cs = pre ++ 'v' :: '=' :: (t ++ post)) ∨
  (∃ pre post, cs = pre ++ '/' :: (t ++ post))

/-- `cs` contains some valid 11-character identifier preceded by `v=` or `/`. -/
def hasIdSub (cs : List Char) : Prop :=
  ∃ t, isValidId t = true ∧ delimAt t cs

/-- A caption fragment returned by the transcript service.  The service returns
`{text, start, duration}`-shaped entries; the code reads only `i["text"]`, so
only that field is embedded. -/
structure Fragment where
  text : String

/-- The exceptions `extract_transcript_details` distinguishes: the two named
exception classes of the transcript library, and the catch-all `Exception`
case carrying the message the f-string interpolates. -/
inductive TranscriptError where
  | transcriptsDisabled
  | noTranscriptFound
  | otherError (msg : String)

/-- The `st.error` message shown for each caught transcript exception. -/
def transcriptErrorMsg : TranscriptError → String
  | .transcriptsDisabled => "Subtitles are disabled for this video."
  | .noTranscriptFound => "No transcript found for this video language."
  | .otherError e => "Error extracting transcript: " ++ e

/-- The loop `transcript = ""; for i in transcript_text: transcript += " " + i["text"]`. -/
def concatTranscript (frags : List Fragment) : String :=
  frags.foldl (fun transcript f => transcript ++ " " ++ f.text) ""

/-- Observable outcome of one call to `extract_transcript_details`: the value
returned, the `st.error` messages shown, and the transcript-service requests
issued. -/
structure FetchOut where
  result : Option String
  errors : List String
  calls : List String

/-- `extract_transcript_details` from `app.py`, with the external
`YouTubeTranscriptApi.get_transcript` call abstracted as a function from the
video id to either the fragment list or a raised exception. -/
def extract_transcript_details
    (get_transcript : String → Except TranscriptError (List Fragment))
    (video_id : String) : FetchOut :=
  match get_transcript video_id with
  | .ok transcript_text => ⟨some (concatTranscript transcript_text), [], [video_id]⟩
  | .error e => ⟨none, [transcriptErrorMsg e], [video_id]⟩

/-- Observable outcome of one call to `generate_gemini_content`: the value
returned, the `st.error` messages shown, and the prompts sent to the model. -/
structure GenOut where
  result : Option String
  errors : List String
  calls : List String

/-- `generate_gemini_content` from `app.py`: builds
`full_prompt = prompt + transcript_text`, invokes the model, and catches any
raised exception, showing it via `st.error`. -/
def generate_gemini_content
    (generate_content : String → Except String String)
    (transcript_text prompt : String) : GenOut :=
  let full_prompt := prompt ++ transcript_text
  match generate_content full_prompt with
  | .ok text => ⟨some text, [], [full_prompt]⟩
  | .error e => ⟨none, ["Error generating summary: " ++ e], [full_prompt]⟩

/-- The module-level constant `system_prompt` of `app.py`, byte for byte
(the triple-quoted literal starts and ends with a newline and keeps the
trailing space after "study guide. "; apostrophes are written `\x27`). -/
def system_prompt : String :=
  "\nYou are an advanced AI Content Strategist and Professional Note-Taker. Your task is to analyze the following YouTube video transcript and generate a comprehensive, \"University-Level\" study guide. \n\nThe goal is that a reader must fully understand the specific value, technical details, and core message of the video WITHOUT needing to watch it.\n\nPlease structure your response exactly as follows:\n\n1.  **EXECUTIVE SUMMARY (TL;DR):**\n    * Provide a 3-5 sentence high-level overview of the video\x27s main topic and purpose.\n\n2.  **CORE CONCEPTS & KEY TAKEAWAYS:**\n    * List the 5-7 most critical points discussed.\n    * Use bullet points.\n    * *Crucial:* Do not be vague. Instead of saying \"The speaker discussed tools,\" say \"The speaker recommended tools like X, Y, and Z for specific tasks.\"\n\n3.  **DETAILED BREAKDOWN:**\n    * Divide the video content into logical sections (e.g., \"Step 1,\" \"The Problem,\" \"The Solution\").\n    * Elaborate on the arguments, tutorials, or stories shared in the transcript.\n    * Include specific numbers, dates, code snippets (if technical), or quotes if they are pivotal.\n\n4.  **ACTIONABLE INSIGHTS / CONCLUSION:**\n    * What should the viewer do with this information?\n    * Summarize the final verdict or closing thoughts.\n\nTRANSCRIPT DATA:\n"

/-- Observable outcome of one press of the "Generate Detailed Notes" button:
`st.warning` messages, `st.error` messages, the video ids sent to the
transcript service, the prompts sent to the model, and the summary rendered
by `st.markdown`, if any. -/
structure PipelineResult where
  warnings : List String
  errors : List String
  transcriptCalls : List String
  geminiCalls : List String
  rendered : Option String

/-- The `st.button("Generate Detailed Notes")` handler (app.py lines 114-132).
Python truthiness makes `if transcript_text:` and `if summary:` false both for
`None` and for the empty string. -/
def run_pipeline (youtube_link : String)
    (get_transcript : String → Except TranscriptError (List Fragment))
    (generate_content : String → Except String String) : PipelineResult :=
  if youtube_link = "" then
    ⟨["Please enter a YouTube link first."], [], [], [], none⟩
  else
    match get_video_id youtube_link with
    | none => ⟨[], [], [], [], none⟩
    | some video_id =>
      let fetch := extract_transcript_details get_transcript video_id
      match fetch.result with
      | none => ⟨[], fetch.errors, fetch.calls, [], none⟩
      | some transcript_text =>
        if transcript_text = "" then
          ⟨[], fetch.errors, fetch.calls, [], none⟩
        else
          let gen := generate_gemini_content generate_content transcript_text system_prompt
          match gen.result with
          | none => ⟨[], fetch.errors ++ gen.errors, fetch.calls, gen.calls, none⟩
          | some summary =>
            if summary = "" then
              ⟨[], fetch.errors ++ gen.errors, fetch.calls, gen.calls, none⟩
            else
              ⟨[], fetch.errors ++ gen.errors, fetch.calls, gen.calls, some summary⟩

/-- Modelled from the spec: "concatenate all returned fragment texts, separated
by single spaces, preserving service-provided order" with the leading space the
example in the spec exhibits — every fragment text preceded by one space. -/
def spacedConcat : List Fragment → String
  | [] => ""
  | f :: rest => " " ++ f.text ++ spacedConcat rest

lemma isValidId_iff (t : List Char) :
    isValidId t = true ↔ t.length = 11 ∧ t.all isIdChar = true := by
  simp [isValidId]

lemma matchAt_one (c : Char) :
    matchAt [c] = if c = '/' then takeId [] else none := rfl

lemma matchAt_cons₂ (c1 c2 : Char) (rest : List Char) :
    matchAt (c1 :: c2 :: rest) =
      if c1 = 'v' ∧ c2 = '=' then takeId rest
      else if c1 = '/' then takeId (c2 :: rest)
      else none := rfl

lemma searchId_cons (c : Char) (rest : List Char) :
    searchId (c :: rest) =
      match matchAt (c :: rest) with
      | some t => some t
      | none => searchId rest := rfl

lemma takeId_eq_some {cs t : List Char} (h : takeId cs = some t) :
    isValidId t = true ∧ ∃ post, cs = t ++ post := by
  unfold takeId at h
  split at h
  · cases h
    exact ⟨by assumption, cs.drop 11, (List.take_append_drop 11 cs).symm⟩
  · cases h

lemma takeId_of_valid {t : List Char} (post : List Char)
    (h : isValidId t = true) : takeId (t ++ post) = some t := by
  have hlen : t.length = 11 := ((isValidId_iff t).mp h).1
  have htake : (t ++ post).take 11 = t := by
    rw [← hlen]; exact List.take_left t post
  unfold takeId
  rw [htake, if_pos h]

lemma matchAt_eq_some {cs t : List Char} (h : matchAt cs = some t) :
    isValidId t = true ∧
      ((∃ post, cs = 'v' :: '=' :: (t ++ post)) ∨
       (∃ post, cs = '/' :: (t ++ post))) := by
  cases cs with
  | nil => cases h
  | cons c1 cs1 =>
    cases cs1 with
    | nil =>
      rw [matchAt_one] at h
      split at h
      · rw [show takeId [] = none from rfl] at h
        cases h
      · cases h
    | cons c2 rest =>
      rw [matchAt_cons₂] at h
      split at h
      · next hc =>
        obtain ⟨hv, post, hpost⟩ := takeId_eq_some h
        exact ⟨hv, Or.inl ⟨post, by rw [hc.1, hc.2, hpost]⟩⟩
      · split at h
        · next hc =>
          obtain ⟨hv, post, hpost⟩ := takeId_eq_some h
          exact ⟨hv, Or.inr ⟨post, by rw [hc, hpost]⟩⟩
        · cases h

lemma matchAt_v {t : List Char} (post : List Char) (h : isValidId t = true) :
    matchAt ('v' :: '=' :: (t ++ post)) = some t := by
  rw [matchAt_cons₂, if_pos ⟨rfl, rfl⟩]
  exact takeId_of_valid post h

lemma matchAt_slash {t : List Char} (post : List Char) (h : isValidId t = true) :
    matchAt ('/' :: (t ++ post)) = some t := by
  cases t with
  | nil =>
    exact absurd (((isValidId_iff []).mp h).1) (by simp)
  | cons a t' =>
    show matchAt ('/' :: a :: (t' ++ post)) = some (a :: t')
    rw [matchAt_cons₂, if_neg (by simp), if_pos rfl]
    exact takeId_of_valid post h

lemma searchId_eq_some {cs t : List Char} (h : searchId cs = some t) :
    isValidId t = true ∧ delimAt t cs := by
  induction cs with
  | nil => cases h
  | cons c rest ih =>
    rw [searchId_cons] at h
    cases hm : matchAt (c :: rest) with
    | some u =>
      rw [hm] at h
      cases h
      obtain ⟨hv, hd⟩ := matchAt_eq_some hm
      refine ⟨hv, ?_⟩
      cases hd with
      | inl hp => exact Or.inl ⟨[], hp.choose, hp.choose_spec⟩
      | inr hp => exact Or.inr ⟨[], hp.choose, hp.choose_spec⟩
    | none =>
      rw [hm] at h
      obtain ⟨hv, hd⟩ := ih h
      refine ⟨hv, ?_⟩
      cases hd with
      | inl hp =>
        obtain ⟨pre, post, hrest⟩ := hp
        exact Or.inl ⟨c :: pre, post, by rw [hrest]; rfl⟩
      | inr hp =>
        obtain ⟨pre, post, hrest⟩ := hp
        exact Or.inr ⟨c :: pre, post, by rw [hrest]; rfl⟩

lemma searchId_of_delim {cs t : List Char} (hv : isValidId t = true)
    (hd : delimAt t cs) : ∃ u, searchId cs = some u := by
  induction cs with
  | nil =>
    exfalso
    cases hd with
    | inl hp =>
      obtain ⟨pre, post, hnil⟩ := hp
      exact absurd hnil.symm (by simp)
    | inr hp =>
      obtain ⟨pre, post, hnil⟩ := hp
      exact absurd hnil.symm (by simp)
  | cons c rest ih =>
    have step : delimAt t rest → ∃ u, searchId (c :: rest) = some u := by
      intro hdrest
      obtain ⟨u, hu⟩ := ih hdrest
      cases hm : matchAt (c :: rest) with
      | some w => exact ⟨w, by rw [searchId_cons, hm]⟩
      | none => exact ⟨u, by rw [searchId_cons, hm]; exact hu⟩
    cases hd with
    | inl hp =>
      obtain ⟨pre, post, hcs⟩ := hp
      cases pre with
      | nil =>
        refine ⟨t, ?_⟩
        have hmv : matchAt (c :: rest) = some t := by
          rw [show c :: rest = 'v' :: '=' :: (t ++ post) from hcs]
          exact matchAt_v post hv
        rw [searchId_cons, hmv]
      | cons p pre' =>
        have hrest : rest = pre' ++ 'v' :: '=' :: (t ++ post) :=
          (List.cons.injEq _ _ _ _ ▸ hcs).2
        exact step (Or.inl ⟨pre', post, hrest⟩)
    | inr hp =>
      obtain ⟨pre, post, hcs⟩ := hp
      cases pre with
      | nil =>
        refine ⟨t, ?_⟩
        have hms : matchAt (c :: rest) = some t := by
          rw [show c :: rest = '/' :: (t ++ post) from hcs]
          exact matchAt_slash post hv
        rw [searchId_cons, hms]
      | cons p pre' =>
        have hrest : rest = pre' ++ '/' :: (t ++ post) :=
          (List.cons.injEq _ _ _ _ ▸ hcs).2
        exact step (Or.inr ⟨pre', post, hrest⟩)

lemma searchId_eq_none_iff (cs : List Char) :
    searchId cs = none ↔ ¬ hasIdSub cs := by
  constructor
  · intro hnone hsub
    obtain ⟨t, hv, hd⟩ := hsub
    obtain ⟨u, hu⟩ := searchId_of_delim hv hd
    rw [hu] at hnone
    cases hnone
  · intro hno
    cases hs : searchId cs with
    | none => rfl
    | some t =>
      obtain ⟨hv, hd⟩ := searchId_eq_some hs
      exact absurd ⟨t, hv, hd⟩ hno

lemma get_video_id_valid {url : String} {vid : String}
    (h : get_video_id url = some vid) :
    vid.length = 11 ∧ vid.data.all isIdChar = true := by
  unfold get_video_id at h
  cases hs : searchId url.data with
  | none => rw [hs] at h; cases h
  | some u =>
    rw [hs] at h
    cases h
    obtain ⟨hv, -⟩ := searchId_eq_some hs
    obtain ⟨hlen, hall⟩ := (isValidId_iff u).mp hv
    exact ⟨hlen, hall⟩

/-- C1: every input string containing a substring made of `v=` or `/` followed
by an 11-character block from the identifier class makes `get_video_id` return
exactly such an 11-character block (the one captured by the regex), i.e. a
valid identifier that occurs in the input immediately after `v=` or `/`. -/
theorem get_video_id_extracts_id (url : String) (h : hasIdSub url.data) :
    ∃ t, get_video_id url = some (String.mk t) ∧ isValidId t = true ∧
      delimAt t url.data := by
  obtain ⟨t0, hv0, hd0⟩ := h
  obtain ⟨u, hu⟩ := searchId_of_delim hv0 hd0
  obtain ⟨huv, hud⟩ := searchId_eq_some hu
  exact ⟨u, by unfold get_video_id; rw [hu]; rfl, huv, hud⟩

theorem get_video_id_extracts_id_witness :
    ∃ t, get_video_id "https://youtu.be/dQw4w9WgXcQ" = some (String.mk t) ∧
      isValidId t = true ∧ delimAt t "https://youtu.be/dQw4w9WgXcQ".data :=
  get_video_id_extracts_id "https://youtu.be/dQw4w9WgXcQ"
    ⟨"dQw4w9WgXcQ".data, by decide,
      Or.inr ⟨"https://youtu.be".data, [], by decide⟩⟩

/-- C2: `get_video_id` returns `None` exactly when the input has no substring
`v=` or `/` followed by 11 identifier-class characters; returning `None` on
such inputs is its only failure mode. -/
theorem get_video_id_none_iff (url : String) :
    get_video_id url = none ↔ ¬ hasIdSub url.data := by
  unfold get_video_id
  rw [Option.map_eq_none']
  exact searchId_eq_none_iff url.data

lemma foldl_spacedConcat (frags : List Fragment) :
    ∀ acc : String,
      List.foldl (fun transcript f => transcript ++ " " ++ f.text) acc frags =
        acc ++ spacedConcat frags := by
  induction frags with
  | nil =>
    intro acc
    apply String.ext
    simp [spacedConcat, String.data_append]
  | cons f rest ih =>
    intro acc
    rw [List.foldl_cons, ih]
    apply String.ext
    simp [spacedConcat, String.data_append, List.append_assoc]

lemma concatTranscript_eq (frags : List Fragment) :
    concatTranscript frags = spacedConcat frags := by
  unfold concatTranscript
  rw [foldl_spacedConcat frags ""]
  apply String.ext
  simp [String.data_append]

/-- C3: on a successful service call the fetcher returns the fragment texts in
service-provided order, adjacent texts separated by single spaces with a single
leading space; in particular for fragments "Hello", "world" it returns
" Hello world", leading space included. -/
theorem extract_transcript_spaced
    (get_transcript : String → Except TranscriptError (List Fragment))
    (video_id : String) (frags : List Fragment)
    (h : get_transcript video_id = Except.ok frags) :
    (extract_transcript_details get_transcript video_id).result =
      some (spacedConcat frags) ∧
    spacedConcat [⟨"Hello"⟩, ⟨"world"⟩] = " Hello world" := by
  constructor
  · unfold extract_transcript_details
    rw [h]
    simp [concatTranscript_eq]
  · decide

theorem extract_transcript_spaced_witness :
    (extract_transcript_details
        (fun _ => Except.ok [⟨"Hello"⟩, ⟨"world"⟩]) "dQw4w9WgXcQ").result =
      some (spacedConcat [⟨"Hello"⟩, ⟨"world"⟩]) ∧
    spacedConcat [⟨"Hello"⟩, ⟨"world"⟩] = " Hello world" :=
  extract_transcript_spaced (fun _ => Except.ok [⟨"Hello"⟩, ⟨"world"⟩])
    "dQw4w9WgXcQ" [⟨"Hello"⟩, ⟨"world"⟩] rfl

lemma get_video_id_empty : get_video_id "" = none := rfl

lemma link_ne_empty_of_id {youtube_link video_id : String}
    (h : get_video_id youtube_link = some video_id) : youtube_link ≠ "" := by
  intro he
  rw [he, get_video_id_empty] at h
  cases h

/-- C4: when the transcript service raises `TranscriptsDisabled`, the fetcher
shows exactly the subtitles-disabled message and yields no transcript, and the
button pipeline makes no generation call and renders nothing for that request. -/
theorem pipeline_transcripts_disabled
    (youtube_link video_id : String)
    (get_transcript : String → Except TranscriptError (List Fragment))
    (generate_content : String → Except String String)
    (hvid : get_video_id youtube_link = some video_id)
    (hdis : get_transcript video_id =
      Except.error TranscriptError.transcriptsDisabled) :
    (extract_transcript_details get_transcript video_id).result = none ∧
    (run_pipeline youtube_link get_transcript generate_content).errors =
      ["Subtitles are disabled for this video."] ∧
    (run_pipeline youtube_link get_transcript generate_content).geminiCalls = [] ∧
    (run_pipeline youtube_link get_transcript generate_content).rendered = none := by
  have hne := link_ne_empty_of_id hvid
  simp [run_pipeline, extract_transcript_details, hvid, hdis, hne,
    transcriptErrorMsg]

theorem pipeline_transcripts_disabled_witness :
    (extract_transcript_details
        (fun _ => Except.error TranscriptError.transcriptsDisabled)
        "dQw4w9WgXcQ").result = none ∧
    (run_pipeline "/dQw4w9WgXcQ"
        (fun _ => Except.error TranscriptError.transcriptsDisabled)
        (fun _ => Except.ok "S")).errors =
      ["Subtitles are disabled for this video."] ∧
    (run_pipeline "/dQw4w9WgXcQ"
        (fun _ => Except.error TranscriptError.transcriptsDisabled)
        (fun _ => Except.ok "S")).geminiCalls = [] ∧
    (run_pipeline "/dQw4w9WgXcQ"
        (fun _ => Except.error TranscriptError.transcriptsDisabled)
        (fun _ => Except.ok "S")).rendered = none :=
  pipeline_transcripts_disabled "/dQw4w9WgXcQ" "dQw4w9WgXcQ"
    (fun _ => Except.error TranscriptError.transcriptsDisabled)
    (fun _ => Except.ok "S") (by decide) rfl

/-- C5 counterexample: the transcript fetch succeeds with the non-empty
transcript " hi" and the generation service returns the text "" for every
prompt, so the claim as stated demands a rendered output equal to "".  The
pipeline makes the generation call but renders nothing, because `if summary:`
is false for the empty string. -/
theorem pipeline_render_empty_counterexample :
    (extract_transcript_details (fun _ => Except.ok [⟨"hi"⟩])
        "dQw4w9WgXcQ").result = some " hi" ∧
    (run_pipeline "/dQw4w9WgXcQ" (fun _ => Except.ok [⟨"hi"⟩])
        (fun _ => Except.ok "")).geminiCalls.length = 1 ∧
    (run_pipeline "/dQw4w9WgXcQ" (fun _ => Except.ok [⟨"hi"⟩])
        (fun _ => Except.ok "")).rendered = none ∧
    ¬ ((run_pipeline "/dQw4w9WgXcQ" (fun _ => Except.ok [⟨"hi"⟩])
        (fun _ => Except.ok "")).rendered = some "") := by
  refine ⟨?_, ?_, ?_, ?_⟩ <;> decide

/-- C5 (amended): when the transcript fetch succeeds with a non-empty
transcript and the generative-text service returns a non-empty text X for the
composed prompt, the final rendered output of the pipeline equals X unmodified. -/
theorem pipeline_renders_summary_unmodified
    (youtube_link video_id X : String)
    (get_transcript : String → Except TranscriptError (List Fragment))
    (generate_content : String → Except String String)
    (frags : List Fragment)
    (hvid : get_video_id youtube_link = some video_id)
    (hok : get_transcript video_id = Except.ok frags)
    (hne : concatTranscript frags ≠ "")
    (hgen : generate_content (system_prompt ++ concatTranscript frags) =
      Except.ok X)
    (hX : X ≠ "") :
    (run_pipeline youtube_link get_transcript generate_content).rendered =
      some X := by
  have hlink := link_ne_empty_of_id hvid
  simp [run_pipeline, extract_transcript_details, generate_gemini_content,
    hvid, hok, hgen, hlink, hne, hX]

theorem pipeline_renders_summary_unmodified_witness :
    (run_pipeline "/dQw4w9WgXcQ" (fun _ => Except.ok [⟨"hi"⟩])
        (fun _ => Except.ok "NOTES")).rendered = some "NOTES" :=
  pipeline_renders_summary_unmodified "/dQw4w9WgXcQ" "dQw4w9WgXcQ" "NOTES"
    (fun _ => Except.ok [⟨"hi"⟩]) (fun _ => Except.ok "NOTES") [⟨"hi"⟩]
    (by decide) rfl (by decide) rfl (by decide)

/-- C6: the composed prompt is exactly the fixed instructional template
followed by the transcript text — plain concatenation, template first, nothing
inserted between and nothing appended after — and that is the only string the
model is invoked with. -/
theorem composed_prompt_is_template_then_transcript
    (generate_content : String → Except String String)
    (transcript_text : String) :
    (generate_gemini_content generate_content transcript_text
        system_prompt).calls = [system_prompt ++ transcript_text] := by
  cases h : generate_content (system_prompt ++ transcript_text) <;>
    simp [generate_gemini_content, h]

/-- C7: pressing "Generate Detailed Notes" with an empty link shows exactly
the warning and makes no external call: no transcript request, no model
request, no error, nothing rendered. -/
theorem pipeline_empty_link_warns
    (get_transcript : String → Except TranscriptError (List Fragment))
    (generate_content : String → Except String String) :
    run_pipeline "" get_transcript generate_content =
      ⟨["Please enter a YouTube link first."], [], [], [], none⟩ := rfl

/-- C8: every error raised inside the transcript fetcher or the summary
generator is caught at its origin, reported exactly once as a visible
message, and replaced by an absent result; with a failing fetch the pipeline for that request stops there: no generation call and nothing rendered. -/
theorem steps_catch_all_errors
    (youtube_link video_id transcript_text prompt gemini_error : String)
    (get_transcript : String → Except TranscriptError (List Fragment))
    (generate_content : String → Except String String)
    (e : TranscriptError)
    (hvid : get_video_id youtube_link = some video_id)
    (h1 : get_transcript video_id = Except.error e)
    (h2 : generate_content (prompt ++ transcript_text) =
      Except.error gemini_error) :
    (extract_transcript_details get_transcript video_id).result = none ∧
    (extract_transcript_details get_transcript video_id).errors =
      [transcriptErrorMsg e] ∧
    (generate_gemini_content generate_content transcript_text prompt).result =
      none ∧
    (generate_gemini_content generate_content transcript_text prompt).errors =
      ["Error generating summary: " ++ gemini_error] ∧
    (run_pipeline youtube_link get_transcript generate_content).geminiCalls =
      [] ∧
    (run_pipeline youtube_link get_transcript generate_content).rendered =
      none := by
  have hne := link_ne_empty_of_id hvid
  refine ⟨?_, ?_, ?_, ?_, ?_, ?_⟩ <;>
    simp [run_pipeline, extract_transcript_details, generate_gemini_content,
      hvid, h1, h2, hne]

theorem steps_catch_all_errors_witness :
    (extract_transcript_details
        (fun _ => Except.error (TranscriptError.otherError "boom"))
        "dQw4w9WgXcQ").result = none ∧
    (extract_transcript_details
        (fun _ => Except.error (TranscriptError.otherError "boom"))
        "dQw4w9WgXcQ").errors =
      [transcriptErrorMsg (TranscriptError.otherError "boom")] ∧
    (generate_gemini_content (fun _ => Except.error "quota") " hi"
        system_prompt).result = none ∧
    (generate_gemini_content (fun _ => Except.error "quota") " hi"
        system_prompt).errors = ["Error generating summary: " ++ "quota"] ∧
    (run_pipeline "/dQw4w9WgXcQ"
        (fun _ => Except.error (TranscriptError.otherError "boom"))
        (fun _ => Except.error "quota")).geminiCalls = [] ∧
    (run_pipeline "/dQw4w9WgXcQ"
        (fun _ => Except.error (TranscriptError.otherError "boom"))
        (fun _ => Except.error "quota")).rendered = none :=
  steps_catch_all_errors "/dQw4w9WgXcQ" "dQw4w9WgXcQ" " hi" system_prompt
    "quota" (fun _ => Except.error (TranscriptError.otherError "boom"))
    (fun _ => Except.error "quota") (TranscriptError.otherError "boom")
    (by decide) rfl rfl

/-- C9: a successful fetch of an empty fragment list yields the empty string,
which the truthiness check in the pipeline treats as failure: no generation call,
nothing rendered, and no warning or error message shown for that request. -/
theorem pipeline_empty_transcript_stops
    (youtube_link video_id : String)
    (get_transcript : String → Except TranscriptError (List Fragment))
    (generate_content : String → Except String String)
    (hvid : get_video_id youtube_link = some video_id)
    (hok : get_transcript video_id = Except.ok []) :
    (extract_transcript_details get_transcript video_id).result = some "" ∧
    (run_pipeline youtube_link get_transcript generate_content).geminiCalls =
      [] ∧
    (run_pipeline youtube_link get_transcript generate_content).rendered =
      none ∧
    (run_pipeline youtube_link get_transcript generate_content).errors = [] ∧
    (run_pipeline youtube_link get_transcript generate_content).warnings =
      [] := by
  have hne := link_ne_empty_of_id hvid
  refine ⟨?_, ?_, ?_, ?_, ?_⟩ <;>
    simp [run_pipeline, extract_transcript_details, hvid, hok, hne,
      concatTranscript]

theorem pipeline_empty_transcript_stops_witness :
    (extract_transcript_details (fun _ => Except.ok []) "dQw4w9WgXcQ").result =
      some "" ∧
    (run_pipeline "/dQw4w9WgXcQ" (fun _ => Except.ok [])
        (fun _ => Except.ok "S")).geminiCalls = [] ∧
    (run_pipeline "/dQw4w9WgXcQ" (fun _ => Except.ok [])
        (fun _ => Except.ok "S")).rendered = none ∧
    (run_pipeline "/dQw4w9WgXcQ" (fun _ => Except.ok [])
        (fun _ => Except.ok "S")).errors = [] ∧
    (run_pipeline "/dQw4w9WgXcQ" (fun _ => Except.ok [])
        (fun _ => Except.ok "S")).warnings = [] :=
  pipeline_empty_transcript_stops "/dQw4w9WgXcQ" "dQw4w9WgXcQ"
    (fun _ => Except.ok []) (fun _ => Except.ok "S") (by decide) rfl

lemma extract_calls
    (get_transcript : String → Except TranscriptError (List Fragment))
    (video_id : String) :
    (extract_transcript_details get_transcript video_id).calls = [video_id] := by
  cases h : get_transcript video_id <;> simp [extract_transcript_details, h]

lemma run_pipeline_transcriptCalls {youtube_link video_id : String}
    {get_transcript : String → Except TranscriptError (List Fragment)}
    {generate_content : String → Except String String}
    (hne : youtube_link ≠ "")
    (hvid : get_video_id youtube_link = some video_id) :
    (run_pipeline youtube_link get_transcript generate_content).transcriptCalls =
      [video_id] := by
  simp only [run_pipeline, if_neg hne, hvid]
  repeat' split
  all_goals simp [extract_calls]

/-- C10: the button branch contacts the transcript service or the model, or
renders anything, only when a valid 11-character identifier was extracted from
the link — and then the single transcript request is keyed by exactly that
identifier.  Contrapositive: a link (empty or not) from which no identifier
can be extracted causes no external call and no rendered result. -/
theorem pipeline_calls_require_valid_id
    (youtube_link : String)
    (get_transcript : String → Except TranscriptError (List Fragment))
    (generate_content : String → Except String String)
    (h : (run_pipeline youtube_link get_transcript
            generate_content).transcriptCalls ≠ [] ∨
         (run_pipeline youtube_link get_transcript
            generate_content).geminiCalls ≠ [] ∨
         (run_pipeline youtube_link get_transcript
            generate_content).rendered ≠ none) :
    ∃ video_id, get_video_id youtube_link = some video_id ∧
      video_id.length = 11 ∧ video_id.data.all isIdChar = true ∧
      (run_pipeline youtube_link get_transcript
          generate_content).transcriptCalls = [video_id] := by
  by_cases hlink : youtube_link = ""
  · subst hlink
    exfalso
    rcases h with h | h | h <;> exact h rfl
  · cases hv : get_video_id youtube_link with
    | none =>
      exfalso
      have hrec : run_pipeline youtube_link get_transcript generate_content =
          ⟨[], [], [], [], none⟩ := by
        simp [run_pipeline, hlink, hv]
      rcases h with h | h | h <;> rw [hrec] at h <;> exact h rfl
    | some video_id =>
      obtain ⟨hlen, hall⟩ := get_video_id_valid hv
      exact ⟨video_id, rfl, hlen, hall, run_pipeline_transcriptCalls hlink hv⟩

theorem pipeline_calls_require_valid_id_witness :
    ∃ video_id, get_video_id "/dQw4w9WgXcQ" = some video_id ∧
      video_id.length = 11 ∧ video_id.data.all isIdChar = true ∧
      (run_pipeline "/dQw4w9WgXcQ" (fun _ => Except.ok [])
          (fun _ => Except.ok "S")).transcriptCalls = [video_id] :=
  pipeline_calls_require_valid_id "/dQw4w9WgXcQ" (fun _ => Except.ok [])
    (fun _ => Except.ok "S") (Or.inl (by decide))

end YtSummary
